import Mathlib

/-!
# The turtle example server (`examples/main.go`)

A shallow embedding of the example wiring of the turtle authentication
middleware: the `EW` error responder, the `User` identity with its `HasRole`
method, the `ValidateFunc` of the registered `jwt` scheme, the two route
option records and their handlers.

Conventions of the embedding:

* a Go `string` is a Lean `String`, and `==` on strings is `String` equality;
* a Go `interface{}` value is an `Iface`: a dynamic type tag with its payload,
  `Iface.nil` being the nil interface;
* a Go `error` is an `Option GoError`, `none` being the nil error;
* a panic is the `Except.error` branch of a handler's result;
* an `http.ResponseWriter` is the body written so far.
-/

namespace Turtle

/-! ## Go runtime values -/

/-- The value built by `errors.New`. -/
structure GoError where
  msg : String
  deriving DecidableEq, Repr

/-- The Go call `errors.New(msg)`. -/
def errorsNew (msg : String) : GoError := ⟨msg⟩

/-- The `User` struct of the example (`main.go`, lines 34-37). -/
structure User where
  Username : String
  Roles : List String
  deriving DecidableEq, Repr

/-- A value of the Go type `interface{}`: the dynamic type with its payload.
`nil` is the nil interface, `str` a `string`, `int` an `int`, `bool` a `bool`,
`user` a `User` struct value and `userPtr` a `*User`. -/
inductive Iface where
  | nil
  | str (s : String)
  | int (n : Int)
  | bool (b : Bool)
  | user (u : User)
  | userPtr (u : User)
  deriving DecidableEq, Repr

/-- The Go type `jwt.MapClaims`, a `map[string]interface{}`, as an association
list in which the first binding of a key is the one the map holds. -/
abbrev MapClaims := List (String × Iface)

/-- Map indexing `m[key]`: the value stored under `key`, or the zero value of
`interface{}` (the nil interface) when the key is absent. -/
def MapClaims.index (m : MapClaims) (key : String) : Iface :=
  match m.lookup key with
  | some v => v
  | none => Iface.nil

/-- Map assignment `m[key] = v`. -/
def MapClaims.set (m : MapClaims) (key : String) (v : Iface) : MapClaims :=
  (key, v) :: m.filter (fun kv => kv.1 != key)

/-- The two-valued type assertion `v.(string)`: the string and `true` when the
dynamic type of `v` is `string`, otherwise the zero string and `false`. -/
def Iface.assertString : Iface → String × Bool
  | Iface.str s => (s, true)
  | _ => ("", false)

/-- The name of the dynamic type of an interface value, as a panic of the
runtime prints it. -/
def Iface.typeName : Iface → String
  | Iface.nil => "nil"
  | Iface.str _ => "string"
  | Iface.int _ => "int"
  | Iface.bool _ => "bool"
  | Iface.user _ => "main.User"
  | Iface.userPtr _ => "*main.User"

/-- The one-valued type assertion `v.(User)`: it panics, with the message of
the runtime, unless the dynamic type of `v` is exactly `User`. -/
def Iface.assertUser : Iface → Except String User
  | Iface.user u => Except.ok u
  | Iface.nil => Except.error "interface conversion: interface \x7b\x7d is nil, not main.User"
  | v =>
    Except.error
      ("interface conversion: interface \x7b\x7d is " ++ v.typeName ++ ", not main.User")

/-! ## The identity (`main.go`, lines 34-52) -/

/-- The loop of `HasRole`: range over the roles, return `true` at the first
one equal to `role`, `false` when the range is exhausted. -/
def hasRoleLoop (role : String) : List String → Bool
  | [] => false
  | r :: rs => if r == role then true else hasRoleLoop role rs

/-- The method `func (u User) HasRole(role string) bool`. -/
def User.HasRole (u : User) (role : String) : Bool :=
  hasRoleLoop role u.Roles

/-- The package variable `user`. -/
def user : User :=
  { Username := "alice", Roles := ["user"] }

/-! ## The jwt scheme (`main.go`, lines 57-69) -/

/-- The `ValidateFunc` closure configured on the jwt scheme: the pair
`(interface{}, error)` it returns. -/
def ValidateFunc (claims : MapClaims) : Iface × Option GoError :=
  let (username, ok) := (claims.index "username").assertString
  if !ok then
    (Iface.nil, some (errorsNew "no username in token"))
  else if username != user.Username then
    (Iface.nil, some (errorsNew "user not found"))
  else
    (Iface.user user, none)

/-! ## Writing a response -/

/-- The Go conversion `[]byte(s)`: the UTF-8 bytes of the string. -/
def bytesOf (s : String) : List UInt8 :=
  s.data.flatMap String.utf8EncodeChar

/-- An `http.ResponseWriter`, observed through the body written to it. -/
structure ResponseWriter where
  body : String
  deriving DecidableEq, Repr

/-- The method `Write` of a response writer: the bytes go after what was
written before. -/
def ResponseWriter.Write (w : ResponseWriter) (s : String) : ResponseWriter :=
  { body := w.body ++ s }

/-- Formatting of `fmt` on the characters of the format, with string
operands. The fragment covered is plain text, `%%`, `%s` and `%v`, with the
diagnostics of `fmt` for a missing operand, an operand of another verb, a lone
`%` at the end and operands left over; flags, widths and the other verbs that
accept a string (`%q`, `%x`, `%X`, `%T`) are not in the fragment. -/
def sprintfChars : List Char → List String → List Char
  | [], [] => []
  | [], a :: as =>
    "%!(EXTRA ".data
      ++ (", ".intercalate ((a :: as).map (fun x => "string=" ++ x))).data ++ [')']
  | ['%'], _ => "%!(NOVERB)".data
  | '%' :: '%' :: rest, as => '%' :: sprintfChars rest as
  | '%' :: 's' :: rest, a :: as => a.data ++ sprintfChars rest as
  | '%' :: 'v' :: rest, a :: as => a.data ++ sprintfChars rest as
  | '%' :: c :: rest, [] => "%!".data ++ c :: "(MISSING)".data ++ sprintfChars rest []
  | '%' :: c :: rest, a :: as =>
    "%!".data ++ c :: "(string=".data ++ a.data ++ ')' :: sprintfChars rest as
  | c :: rest, as => c :: sprintfChars rest as

/-- The Go call `fmt.Sprintf(format, args...)` on string operands. -/
def Sprintf (format : String) (args : List String) : String :=
  String.mk (sprintfChars format.data args)

/-- The Go call `fmt.Fprintf(w, format, args...)`: one `Write` of the
formatted text. -/
def Fprintf (w : ResponseWriter) (format : String) (args : List String) :
    ResponseWriter :=
  w.Write (Sprintf format args)

/-! ## Requests and their context -/

/-- A key of a request context: the type `turtle.CtxCredentials` (its only
value is `turtle.CtxCredentials{}`), or any other key. -/
inductive CtxKey where
  | CtxCredentials
  | other (name : String)
  deriving DecidableEq, Repr

/-- A `context.Context`, as the chain of `WithValue` bindings, the innermost
first. -/
abbrev Context := List (CtxKey × Iface)

/-- The method `Value` of a context: the value bound to the key nearest to
the front, the nil interface when the key is not bound. -/
def Context.Value (ctx : Context) (key : CtxKey) : Iface :=
  match ctx.lookup key with
  | some v => v
  | none => Iface.nil

/-- An `*http.Request`: what a handler can read from it. -/
structure Request where
  Method : String
  Path : String
  Header : List (String × String)
  Body : String
  ctx : Context
  deriving DecidableEq, Repr

/-- The method `Context` of a request. -/
def Request.Context (r : Request) : Context := r.ctx

/-- An `http.HandlerFunc`: it either returns, leaving the writer in a new
state, or panics with a message. -/
abbrev HandlerFunc := ResponseWriter → Request → Except String ResponseWriter

/-! ## The error responder `EW` (`main.go`, lines 16-32) -/

/-- The empty struct `EW`. -/
structure EW where
  deriving DecidableEq, Repr

/-- The method `func (e EW) Unauthorized(w, r, err)`. -/
def EW.Unauthorized (_e : EW) (w : ResponseWriter) (_r : Request)
    (_err : Option GoError) : ResponseWriter :=
  Fprintf w "unauthorized" []

/-- The method `func (e EW) ServerError(w, r, err)`. -/
def EW.ServerError (_e : EW) (w : ResponseWriter) (_r : Request)
    (_err : Option GoError) : ResponseWriter :=
  Fprintf w "serverError" []

/-- The method `func (e EW) Forbidden(w, r, err)`. -/
def EW.Forbidden (_e : EW) (w : ResponseWriter) (_r : Request)
    (_err : Option GoError) : ResponseWriter :=
  Fprintf w "forbidden" []

/-- The method `func (e EW) BadRequest(w, r, err)`. -/
def EW.BadRequest (_e : EW) (w : ResponseWriter) (_r : Request)
    (_err : Option GoError) : ResponseWriter :=
  Fprintf w "bad request" []

/-! ## Tokens (`jwt-go`, as far as the example uses it) -/

/-- The signing methods of `jwt-go` of the HMAC family. -/
inductive SigningMethod where
  | HS256
  | HS384
  | HS512
  deriving DecidableEq, Repr

/-- A `jwt.Token` before signing: its method and its claims. -/
structure Token where
  Method : SigningMethod
  Claims : MapClaims
  deriving DecidableEq, Repr

/-- The Go call `jwt.New(method)`: a token of that method with empty claims. -/
def jwtNew (method : SigningMethod) : Token :=
  { Method := method, Claims := [] }

/-- The type of `(*jwt.Token).SignedString`: from the token and the key to the
encoded token and an error. The function itself belongs to `jwt-go` and is a
parameter of what uses it. -/
abbrev Signer := Token → List UInt8 → String × Option GoError

/-- The struct `schemes.JWTScheme`, with the two fields the example sets. -/
structure JWTScheme where
  Secret : List UInt8
  ValidateFunc : MapClaims → Iface × Option GoError

/-- The scheme value registered under the name `"jwt"`. -/
def jwtScheme : JWTScheme :=
  { Secret := bytesOf "password", ValidateFunc := ValidateFunc }

/-! ## The handlers and their routes (`main.go`, lines 73-96) -/

/-- The claims the `/token` handler builds: the empty `jwt.MapClaims{}` with
`claims["username"] = user.Username`. -/
def tokenClaims : MapClaims :=
  MapClaims.set [] "username" (Iface.str user.Username)

/-- The key the `/token` handler signs with, `[]byte("password")`. -/
def tokenKey : List UInt8 := bytesOf "password"

/-- The `HandlerFunc` of the route `POST /token`. The error of `SignedString`
is dropped, as in the source. -/
def tokenHandler (SignedString : Signer) : HandlerFunc := fun w _r =>
  let token := jwtNew SigningMethod.HS512
  let claims := tokenClaims
  let token := { token with Claims := claims }
  let (s, _) := SignedString token tokenKey
  Except.ok (Fprintf w "token: %s" [s])

/-- The `HandlerFunc` of the route `GET /me`: the credentials of the context,
asserted to be a `User` with the one-valued form of the assertion. -/
def meHandler : HandlerFunc := fun w r => do
  let u ← (r.Context.Value CtxKey.CtxCredentials).assertUser
  pure (Fprintf w "username: %s" [u.Username])

/-- The options struct `turtle.O`; a field left out of a literal has the zero
value of its type. -/
structure O where
  Allow : List String := []
  AuthMode : String := ""
  Roles : List String := []
  Schemes : List String := []
  HandlerFunc : HandlerFunc

/-- The options of the route `POST /token`. -/
def tokenRoute (SignedString : Signer) : O :=
  { Allow := ["application/json"]
    AuthMode := "none"
    HandlerFunc := tokenHandler SignedString }

/-- The options of the route `GET /me`. -/
def meRoute : O :=
  { AuthMode := "required"
    Roles := ["user"]
    Schemes := ["jwt"]
    HandlerFunc := meHandler }

/-- A call made by `main` while it sets the server up. `Handle method path o`
is `mux.HandleFunc(pat.<method>(path), bundle.New(o))`. -/
inductive SetupCall where
  | RegisterScheme (name : String) (scheme : JWTScheme)
  | SetDefaultScheme (name : String)
  | Handle (method : String) (path : String) (o : O)

/-- The calls of `main`, in the order of the source. -/
def mainSetup (SignedString : Signer) : List SetupCall :=
  [ SetupCall.RegisterScheme "jwt" jwtScheme,
    SetupCall.SetDefaultScheme "jwt",
    SetupCall.Handle "POST" "/token" (tokenRoute SignedString),
    SetupCall.Handle "GET" "/me" meRoute ]

/-- The route options `main` passes to `bundle.New`, in the order of the
source. -/
def routesOf : List SetupCall → List O
  | [] => []
  | SetupCall.Handle _ _ o :: rest => o :: routesOf rest
  | _ :: rest => routesOf rest

/-- The names `main` passes to `SetDefaultScheme`, in the order of the
source. -/
def defaultSchemeCalls : List SetupCall → List String
  | [] => []
  | SetupCall.SetDefaultScheme name :: rest => name :: defaultSchemeCalls rest
  | _ :: rest => defaultSchemeCalls rest

/-- The names `main` has passed to `RegisterScheme`, in the order of the
source. -/
def registerSchemeCalls : List SetupCall → List String
  | [] => []
  | SetupCall.RegisterScheme name _ :: rest => name :: registerSchemeCalls rest
  | _ :: rest => registerSchemeCalls rest

/-! ## The bundler, from the specification

The bundler of the library (`turtle.NewBundler`, `RegisterScheme`,
`SetDefaultScheme`, `New`) is called by `main.go` and defined elsewhere; what
follows models the part of it that the setup of the example exercises. -/

/-- Modelled from the spec: the setup-time errors of the taxonomy of section
7, which the absent bundler raises: an invalid scheme reference, an empty
scheme list when authentication is required or optional, and the mode `none`
combined with roles. -/
inductive ConfigError where
  | invalidSchemeReference (name : String)
  | emptySchemeList
  | noneWithRoles
  deriving DecidableEq, Repr

/-- Modelled from the spec: the enumeration `AuthMode` of the route policy
(section 3), which the absent bundler reads from the string of `turtle.O`. -/
inductive AuthMode where
  | none
  | optional
  | required
  deriving DecidableEq, Repr

/-- Modelled from the spec: the reading of the option `AuthMode` by the absent
`Bundler.New` (section 4.2): `none`, `optional`, and `required` as the default
of a wrapped route. -/
def parseAuthMode (s : String) : AuthMode :=
  if s == "none" then AuthMode.none
  else if s == "optional" then AuthMode.optional
  else AuthMode.required

/-- Modelled from the spec: the scheme registry of the absent bundler
(section 3): the schemes by name and the optional default scheme name. -/
structure Registry where
  schemesByName : List (String × JWTScheme)
  defaultSchemeName : Option String

/-- Modelled from the spec: the registry of the absent `turtle.NewBundler`,
with no scheme and no default. -/
def Registry.empty : Registry :=
  { schemesByName := [], defaultSchemeName := none }

/-- Modelled from the spec: whether a name is registered, the test behind the
absent `lookup` of section 4.1. -/
def Registry.registered (reg : Registry) (name : String) : Bool :=
  reg.schemesByName.any (fun p => p.1 == name)

/-- Modelled from the spec: the absent `RegisterScheme` (section 4.1,
`register`): it adds or replaces the entry of the name, with no error. -/
def Registry.register (reg : Registry) (name : String) (scheme : JWTScheme) :
    Registry :=
  { reg with
    schemesByName := (name, scheme) :: reg.schemesByName.filter (fun p => p.1 != name) }

/-- Modelled from the spec: the absent `SetDefaultScheme` (section 4.1,
`setDefault`): a `ConfigError` when the name is not registered. -/
def Registry.setDefault (reg : Registry) (name : String) :
    Except ConfigError Registry :=
  if reg.registered name then
    Except.ok { reg with defaultSchemeName := some name }
  else
    Except.error (ConfigError.invalidSchemeReference name)

/-- Modelled from the spec: the route policy the absent `Bundler.New` builds
(section 3): the mode, the resolved scheme names and the required roles. -/
structure RoutePolicy where
  authMode : AuthMode
  schemeNames : List String
  requiredRoles : List String
  deriving DecidableEq, Repr

/-- Modelled from the spec: the scheme list of a route as the absent
`Bundler.New` resolves it (section 4.2): the explicit `Schemes`, else the
default scheme of the registry alone, else nothing. -/
def Registry.resolve (reg : Registry) (o : O) : List String :=
  if o.Schemes.isEmpty then
    match reg.defaultSchemeName with
    | some d => [d]
    | none => []
  else o.Schemes

/-- Modelled from the spec: the first name of a list that the registry does
not hold, for the invariant of section 3 on the scheme names of a policy
checked by the absent `Bundler.New`. -/
def Registry.firstUnregistered (reg : Registry) : List String → Option String
  | [] => Option.none
  | n :: ns => if reg.registered n then reg.firstUnregistered ns else some n

/-- Modelled from the spec: the validation the absent `Bundler.New` does at
construction (sections 4.2, 4.3 step 1 and 7). With the mode `none` roles are
a `ConfigError`; with `required` or `optional` an empty resolved scheme list
is one; in every mode a scheme name that is not registered is one. -/
def newPolicy (reg : Registry) (o : O) : Except ConfigError RoutePolicy :=
  match parseAuthMode o.AuthMode with
  | AuthMode.none =>
    if !o.Roles.isEmpty then Except.error ConfigError.noneWithRoles
    else
      match reg.firstUnregistered o.Schemes with
      | some n => Except.error (ConfigError.invalidSchemeReference n)
      | Option.none =>
        Except.ok { authMode := AuthMode.none, schemeNames := o.Schemes, requiredRoles := [] }
  | mode =>
    let names := reg.resolve o
    if names.isEmpty then Except.error ConfigError.emptySchemeList
    else
      match reg.firstUnregistered names with
      | some n => Except.error (ConfigError.invalidSchemeReference n)
      | Option.none =>
        Except.ok { authMode := mode, schemeNames := names, requiredRoles := o.Roles }

/-- Modelled from the spec: one setup call against the absent bundler: the
registry and the policies built so far go to the next ones, or to the
`ConfigError` that stops the setup. -/
def setupStep (st : Registry × List RoutePolicy) :
    SetupCall → Except ConfigError (Registry × List RoutePolicy)
  | SetupCall.RegisterScheme name scheme => Except.ok (st.1.register name scheme, st.2)
  | SetupCall.SetDefaultScheme name =>
    match st.1.setDefault name with
    | Except.ok reg => Except.ok (reg, st.2)
    | Except.error e => Except.error e
  | SetupCall.Handle _ _ o =>
    match newPolicy st.1 o with
    | Except.ok p => Except.ok (st.1, st.2 ++ [p])
    | Except.error e => Except.error e

/-- Modelled from the spec: a sequence of setup calls against the absent
bundler, stopped by the first `ConfigError`. -/
def runSetup (st : Registry × List RoutePolicy) :
    List SetupCall → Except ConfigError (Registry × List RoutePolicy)
  | [] => Except.ok st
  | c :: cs =>
    match setupStep st c with
    | Except.ok st1 => runSetup st1 cs
    | Except.error e => Except.error e

/-- Modelled from the spec: the outcomes of an evaluation by the absent
evaluator (section 3). -/
inductive Outcome where
  | Allowed (identity : Option Iface)
  | Unauthorized
  | Forbidden
  | BadRequest
  | ServerError
  deriving DecidableEq, Repr

/-- Modelled from the spec: steps 4 and 5 of the admission algorithm of the
absent evaluator (section 4.3), reached once a scheme has produced an
identity: with no required role the check is skipped, otherwise `hasRole` is
asked for each required role and holding none of them is `Forbidden`. -/
def roleStep (requiredRoles : List String) (identity : Iface)
    (hasRole : String → Bool) : Outcome :=
  if requiredRoles.isEmpty then Outcome.Allowed (some identity)
  else if requiredRoles.any hasRole then Outcome.Allowed (some identity)
  else Outcome.Forbidden

/-! ## Facts about the loop -/

theorem hasRoleLoop_iff (role : String) (roles : List String) :
    hasRoleLoop role roles = true ↔ role ∈ roles := by
  induction roles with
  | nil => simp [hasRoleLoop]
  | cons r rs ih =>
    by_cases h : r = role
    · simp [hasRoleLoop, h]
    · have h2 : ¬ role = r := fun e => h e.symm
      simp [hasRoleLoop, h, h2, ih]

/-- **C1**. `u.HasRole(role)` is `true` exactly when `role` is equal, as a
string, to an element of `u.Roles`; with no roles it is `false` for every
role; and equality is case-sensitive (`"User"` is not the role `"user"`). -/
theorem HasRole_iff_mem :
    (∀ (u : User) (role : String),
        u.HasRole role = true ↔ ∃ r ∈ u.Roles, r = role) ∧
    (∀ (u : User) (role : String), u.Roles = [] → u.HasRole role = false) ∧
    user.HasRole "User" = false := by
  refine ⟨?_, ?_, ?_⟩
  · intro u role
    simp [User.HasRole, hasRoleLoop_iff]
  · intro u role h
    simp [User.HasRole, h, hasRoleLoop]
  · decide

/-! ## The validator -/

theorem index_of_lookup (claims : MapClaims) (key : String) (v : Iface)
    (h : claims.lookup key = some v) : claims.index key = v := by
  simp [MapClaims.index, h]

theorem ValidateFunc_of_name (claims : MapClaims)
    (h : claims.lookup "username" = some (Iface.str "alice")) :
    ValidateFunc claims = (Iface.user user, none) := by
  simp [ValidateFunc, index_of_lookup claims _ _ h, Iface.assertString, user]

theorem ValidateFunc_of_not_name (claims : MapClaims)
    (h : claims.lookup "username" ≠ some (Iface.str "alice")) :
    (ValidateFunc claims).1 = Iface.nil ∧ (ValidateFunc claims).2 ≠ none := by
  unfold ValidateFunc MapClaims.index
  cases hl : List.lookup "username" claims with
  | none => simp [Iface.assertString]
  | some v =>
    cases v with
    | str s =>
      have hs : s ≠ "alice" := by
        intro e
        apply h
        rw [hl, e]
      simp [Iface.assertString, user, hs]
    | nil => simp [Iface.assertString]
    | int n => simp [Iface.assertString]
    | bool b => simp [Iface.assertString]
    | user u => simp [Iface.assertString]
    | userPtr u => simp [Iface.assertString]

theorem ValidateFunc_ok_iff (claims : MapClaims) :
    (ValidateFunc claims).2 = none ↔
      claims.lookup "username" = some (Iface.str "alice") := by
  constructor
  · intro h
    by_contra hn
    exact (ValidateFunc_of_not_name claims hn).2 h
  · intro h
    rw [ValidateFunc_of_name claims h]

/-- **C2**. For every claims map the `ValidateFunc` of the jwt scheme returns
either the identity `user` with a nil error, exactly when the key `username`
is present, holds a string, and that string is `user.Username`, which is
`"alice"`; or, in every other case, a nil identity with a non-nil error. It
never returns both an identity and an error, and never neither. -/
theorem ValidateFunc_identity_or_error (claims : MapClaims) :
    user.Username = "alice" ∧
    ((claims.lookup "username" = some (Iface.str user.Username) ∧
        ValidateFunc claims = (Iface.user user, none)) ∨
      (claims.lookup "username" ≠ some (Iface.str user.Username) ∧
        (ValidateFunc claims).1 = Iface.nil ∧ (ValidateFunc claims).2 ≠ none)) ∧
    (ValidateFunc claims = (Iface.user user, none) ↔
      claims.lookup "username" = some (Iface.str user.Username)) ∧
    ((ValidateFunc claims).1 = Iface.nil ↔ (ValidateFunc claims).2 ≠ none) := by
  have hu : user.Username = "alice" := rfl
  rw [hu]
  by_cases h : claims.lookup "username" = some (Iface.str "alice")
  · have hv := ValidateFunc_of_name claims h
    refine ⟨rfl, Or.inl ⟨h, hv⟩, ⟨fun _ => h, fun _ => hv⟩, ?_⟩
    rw [hv]
    simp
  · have hv := ValidateFunc_of_not_name claims h
    refine ⟨rfl, Or.inr ⟨h, hv⟩, ⟨fun e => ?_, fun e => absurd e h⟩, ?_⟩
    · rw [e] at hv
      exact absurd rfl hv.2
    · exact ⟨fun _ => hv.2, fun _ => hv.1⟩

theorem ValidateFunc_value_of_ok (claims : MapClaims)
    (h : (ValidateFunc claims).2 = none) :
    ValidateFunc claims = (Iface.user user, none) :=
  ValidateFunc_of_name claims ((ValidateFunc_ok_iff claims).1 h)

/-- **C3**. When the `ValidateFunc` of the jwt scheme succeeds, the identity it
returns is a `User` whose roles are exactly `["user"]`, `HasRole("user")` is
true on it, it holds one of the roles the `/me` route requires, and the role
step of the evaluator on the roles of `/me` allows it: the outcome is not
`Forbidden`. -/
theorem validated_identity_passes_role_step (claims : MapClaims)
    (h : (ValidateFunc claims).2 = none) :
    ∃ u : User, (ValidateFunc claims).1 = Iface.user u ∧
      u.Roles = ["user"] ∧
      u.HasRole "user" = true ∧
      (∃ r ∈ meRoute.Roles, u.HasRole r = true) ∧
      roleStep meRoute.Roles (Iface.user u) u.HasRole
        = Outcome.Allowed (some (Iface.user u)) ∧
      roleStep meRoute.Roles (ValidateFunc claims).1 u.HasRole ≠ Outcome.Forbidden := by
  have hv := ValidateFunc_value_of_ok claims h
  refine ⟨user, ?_, rfl, by decide, ⟨"user", by simp [meRoute], by decide⟩, by decide, ?_⟩
  · rw [hv]
  · rw [hv]
    decide

/-- The statement of C3 at the claims `{"username": "alice"}`. -/
theorem validated_identity_passes_role_step_witness :
    (ValidateFunc [("username", Iface.str "alice")]).2 = none ∧
    ∃ u : User, (ValidateFunc [("username", Iface.str "alice")]).1 = Iface.user u ∧
      u.Roles = ["user"] ∧
      u.HasRole "user" = true ∧
      (∃ r ∈ meRoute.Roles, u.HasRole r = true) ∧
      roleStep meRoute.Roles (Iface.user u) u.HasRole
        = Outcome.Allowed (some (Iface.user u)) ∧
      roleStep meRoute.Roles (ValidateFunc [("username", Iface.str "alice")]).1 u.HasRole
        ≠ Outcome.Forbidden :=
  ⟨by decide, validated_identity_passes_role_step _ (by decide)⟩

/-! ## The handlers -/

theorem Sprintf_username (s : String) :
    Sprintf "username: %s" [s] = "username: " ++ s := by
  apply String.ext
  simp [Sprintf, sprintfChars]

theorem Sprintf_token (s : String) :
    Sprintf "token: %s" [s] = "token: " ++ s := by
  apply String.ext
  simp [Sprintf, sprintfChars]

theorem meHandler_of_user (w : ResponseWriter) (r : Request) (u : User)
    (h : r.Context.Value CtxKey.CtxCredentials = Iface.user u) :
    meHandler w r = Except.ok (w.Write ("username: " ++ u.Username)) := by
  simp only [meHandler, h, Iface.assertUser, Fprintf, Sprintf_username]
  rfl

theorem meHandler_of_not_user (w : ResponseWriter) (r : Request)
    (h : ∀ u : User, r.Context.Value CtxKey.CtxCredentials ≠ Iface.user u) :
    ∃ msg : String, meHandler w r = Except.error msg := by
  unfold meHandler
  cases hv : r.Context.Value CtxKey.CtxCredentials with
  | user u => exact absurd hv (h u)
  | nil => exact ⟨_, rfl⟩
  | str s => exact ⟨_, rfl⟩
  | int n => exact ⟨_, rfl⟩
  | bool b => exact ⟨_, rfl⟩
  | userPtr u => exact ⟨_, rfl⟩

/-- **C7**. When the `ValidateFunc` of the jwt scheme succeeds, what it returns
is a `User` value, not a pointer or a value of another type; in a request
whose context holds that value under `turtle.CtxCredentials{}` the type
assertion of the `/me` handler succeeds and the handler writes exactly
`username: alice`. In general, with a `User` mounted, the handler writes
`username: ` followed by the `Username` of that `User`. -/
theorem meHandler_on_validated_identity (claims : MapClaims)
    (h : (ValidateFunc claims).2 = none) (w : ResponseWriter) (r : Request)
    (hr : r.Context.Value CtxKey.CtxCredentials = (ValidateFunc claims).1) :
    (∃ u : User, (ValidateFunc claims).1 = Iface.user u) ∧
    (∀ u : User, (ValidateFunc claims).1 ≠ Iface.userPtr u) ∧
    (r.Context.Value CtxKey.CtxCredentials).assertUser = Except.ok user ∧
    meHandler w r = Except.ok { body := w.body ++ "username: alice" } ∧
    (∀ (w1 : ResponseWriter) (r1 : Request) (u : User),
      r1.Context.Value CtxKey.CtxCredentials = Iface.user u →
        meHandler w1 r1 = Except.ok { body := w1.body ++ ("username: " ++ u.Username) }) := by
  have hv := ValidateFunc_value_of_ok claims h
  rw [hv] at hr
  refine ⟨⟨user, by rw [hv]⟩, ?_, ?_, ?_, ?_⟩
  · intro u
    rw [hv]
    simp
  · rw [hr]
    rfl
  · rw [meHandler_of_user w r user hr]
    rfl
  · intro w1 r1 u h1
    rw [meHandler_of_user w1 r1 u h1]
    rfl

/-- The statement of C7 at the claims `{"username": "alice"}`, an empty
response and a `GET /me` request whose context holds the validated identity. -/
theorem meHandler_on_validated_identity_witness :
    (ValidateFunc [("username", Iface.str "alice")]).2 = none ∧
    meHandler { body := "" }
        { Method := "GET", Path := "/me", Header := [], Body := "",
          ctx := [(CtxKey.CtxCredentials, Iface.user user)] }
      = Except.ok { body := "" ++ "username: alice" } :=
  ⟨by decide,
   (meHandler_on_validated_identity [("username", Iface.str "alice")] (by decide)
      { body := "" }
      { Method := "GET", Path := "/me", Header := [], Body := "",
        ctx := [(CtxKey.CtxCredentials, Iface.user user)] }
      (by decide)).2.2.2.1⟩

/-- **C6**, as stated, fails. On a `GET /me` request whose context holds
nothing under the credentials key the handler panics on its type assertion, and
it panics as well when the value held there is a `*User` and not a `User`. -/
theorem meHandler_panics_without_identity :
    meHandler { body := "" }
        { Method := "GET", Path := "/me", Header := [], Body := "", ctx := [] }
      = Except.error "interface conversion: interface \x7b\x7d is nil, not main.User" ∧
    meHandler { body := "" }
        { Method := "GET", Path := "/me", Header := [], Body := "",
          ctx := [(CtxKey.CtxCredentials, Iface.userPtr user)] }
      = Except.error
          "interface conversion: interface \x7b\x7d is *main.User, not main.User" := by
  constructor
  · rfl
  · exact congrArg Except.error (by decide)

/-- **C6**, amended. The `/me` handler returns exactly on the requests whose
context holds a `User` value under the credentials key, and then it writes
`username: ` and the name; on every other request, one that has no identity
attached or a value that is not a `User`, the retrieval panics: the handler
has no check for absence. -/
theorem meHandler_returns_iff_user_mounted (w : ResponseWriter) (r : Request) :
    ((∃ w1 : ResponseWriter, meHandler w r = Except.ok w1) ↔
      ∃ u : User, r.Context.Value CtxKey.CtxCredentials = Iface.user u) ∧
    ((∃ msg : String, meHandler w r = Except.error msg) ↔
      ∀ u : User, r.Context.Value CtxKey.CtxCredentials ≠ Iface.user u) ∧
    (∀ u : User, r.Context.Value CtxKey.CtxCredentials = Iface.user u →
      meHandler w r = Except.ok { body := w.body ++ ("username: " ++ u.Username) }) := by
  by_cases hu : ∃ u : User, r.Context.Value CtxKey.CtxCredentials = Iface.user u
  · obtain ⟨u, hu⟩ := hu
    have hok := meHandler_of_user w r u hu
    refine ⟨⟨fun _ => ⟨u, hu⟩, fun _ => ⟨_, hok⟩⟩, ⟨?_, ?_⟩, ?_⟩
    · rintro ⟨msg, hm⟩
      rw [hok] at hm
      cases hm
    · intro hn
      exact absurd hu (hn u)
    · intro u1 h1
      rw [meHandler_of_user w r u1 h1]
      rfl
  · have hn : ∀ u : User, r.Context.Value CtxKey.CtxCredentials ≠ Iface.user u :=
      fun u e => hu ⟨u, e⟩
    obtain ⟨msg, hm⟩ := meHandler_of_not_user w r hn
    refine ⟨⟨?_, fun h => absurd h hu⟩, ⟨fun _ => hn, fun _ => ⟨msg, hm⟩⟩, ?_⟩
    · rintro ⟨w1, hw⟩
      rw [hm] at hw
      cases hw
    · intro u1 h1
      exact absurd h1 (hn u1)

theorem tokenHandler_eq (SignedString : Signer) (w : ResponseWriter) (r : Request) :
    tokenHandler SignedString w r
      = Except.ok (w.Write ("token: " ++
          (SignedString { Method := SigningMethod.HS512, Claims := tokenClaims } tokenKey).1)) := by
  simp only [tokenHandler, jwtNew, Fprintf, Sprintf_token]

/-- **C8**. The `/token` handler returns on every request, whatever its
context holds, and what it writes does not depend on the request: for any two
requests the result is the same, the body so far followed by `token: ` and the
string `SignedString` gives for the HS512 token with the claims
`{username: user.Username}` and the key `[]byte("password")`. -/
theorem tokenHandler_independent_of_request (SignedString : Signer)
    (w : ResponseWriter) (r1 r2 : Request) :
    tokenHandler SignedString w r1
      = Except.ok { body := w.body ++ ("token: " ++
          (SignedString
            { Method := SigningMethod.HS512,
              Claims := [("username", Iface.str user.Username)] }
            (bytesOf "password")).1) } ∧
    tokenHandler SignedString w r1 = tokenHandler SignedString w r2 := by
  constructor
  · rw [tokenHandler_eq]
    rfl
  · rw [tokenHandler_eq, tokenHandler_eq]

/-- **C9**. The claims the `/token` handler builds are `{"username": "alice"}`;
the `ValidateFunc` of the jwt scheme accepts them and returns exactly `user`
(name `alice`, roles `["user"]`) with a nil error; and the key the handler
signs with is the `Secret` of the registered jwt scheme. -/
theorem token_claims_round_trip (SignedString : Signer) (w : ResponseWriter)
    (r : Request) :
    tokenClaims = [("username", Iface.str "alice")] ∧
    jwtScheme.ValidateFunc tokenClaims
      = (Iface.user { Username := "alice", Roles := ["user"] }, none) ∧
    tokenKey = jwtScheme.Secret ∧
    tokenHandler SignedString w r
      = Except.ok (Fprintf w "token: %s"
          [(SignedString { Method := SigningMethod.HS512, Claims := tokenClaims }
              jwtScheme.Secret).1]) ∧
    SetupCall.RegisterScheme "jwt" jwtScheme ∈ mainSetup SignedString := by
  refine ⟨by decide, by decide, rfl, rfl, ?_⟩
  simp [mainSetup]

/-! ## The error responder -/

theorem Write_left_cancel (w : ResponseWriter) (a b : String)
    (h : w.Write a = w.Write b) : a = b := by
  simp only [ResponseWriter.Write, ResponseWriter.mk.injEq] at h
  have hd := congrArg String.data h
  simp only [String.data_append, List.append_cancel_left_eq] at hd
  exact String.ext hd

/-- **C10**. Each of the four methods of `EW` appends one fixed string to the
body: `unauthorized`, `serverError`, `forbidden`, `bad request`. The result
does not depend on the request or on the error, and the four strings, hence
the four bodies written from the same start, are pairwise distinct. -/
theorem EW_writes_fixed_strings (e : EW) (w : ResponseWriter) (r r1 : Request)
    (err err1 : Option GoError) :
    (e.Unauthorized w r err = { body := w.body ++ "unauthorized" } ∧
      e.ServerError w r err = { body := w.body ++ "serverError" } ∧
      e.Forbidden w r err = { body := w.body ++ "forbidden" } ∧
      e.BadRequest w r err = { body := w.body ++ "bad request" }) ∧
    (e.Unauthorized w r err = e.Unauthorized w r1 err1 ∧
      e.ServerError w r err = e.ServerError w r1 err1 ∧
      e.Forbidden w r err = e.Forbidden w r1 err1 ∧
      e.BadRequest w r err = e.BadRequest w r1 err1) ∧
    List.Pairwise (fun a b => a ≠ b)
      ["unauthorized", "serverError", "forbidden", "bad request"] ∧
    List.Pairwise (fun a b => a ≠ b)
      [e.Unauthorized w r err, e.ServerError w r err, e.Forbidden w r err,
        e.BadRequest w r err] := by
  have h1 : Sprintf "unauthorized" [] = "unauthorized" := by decide
  have h2 : Sprintf "serverError" [] = "serverError" := by decide
  have h3 : Sprintf "forbidden" [] = "forbidden" := by decide
  have h4 : Sprintf "bad request" [] = "bad request" := by decide
  refine ⟨⟨?_, ?_, ?_, ?_⟩, ⟨rfl, rfl, rfl, rfl⟩, by decide, ?_⟩
  · simp only [EW.Unauthorized, Fprintf, h1, ResponseWriter.Write]
  · simp only [EW.ServerError, Fprintf, h2, ResponseWriter.Write]
  · simp only [EW.Forbidden, Fprintf, h3, ResponseWriter.Write]
  · simp only [EW.BadRequest, Fprintf, h4, ResponseWriter.Write]
  · have hne : ∀ a b : String, a ≠ b → w.Write a ≠ w.Write b :=
      fun a b hab hw => hab (Write_left_cancel w a b hw)
    simp only [EW.Unauthorized, EW.ServerError, EW.Forbidden, EW.BadRequest, Fprintf,
      h1, h2, h3, h4]
    refine List.Pairwise.cons ?_ (List.Pairwise.cons ?_ (List.Pairwise.cons ?_
      (List.Pairwise.cons ?_ List.Pairwise.nil)))
    · intro a ha
      simp only [List.mem_cons, List.mem_singleton, List.not_mem_nil, or_false] at ha
      rcases ha with rfl | rfl | rfl
      · exact hne _ _ (by decide)
      · exact hne _ _ (by decide)
      · exact hne _ _ (by decide)
    · intro a ha
      simp only [List.mem_cons, List.mem_singleton, List.not_mem_nil, or_false] at ha
      rcases ha with rfl | rfl
      · exact hne _ _ (by decide)
      · exact hne _ _ (by decide)
    · intro a ha
      simp only [List.mem_cons, List.mem_singleton, List.not_mem_nil, or_false] at ha
      subst ha
      exact hne _ _ (by decide)
    · intro a ha
      exact absurd ha (List.not_mem_nil a)

/-! ## The setup of `main` -/

theorem routesOf_mainSetup (SignedString : Signer) :
    routesOf (mainSetup SignedString) = [tokenRoute SignedString, meRoute] := rfl

theorem runSetup_mainSetup (SignedString : Signer) :
    runSetup (Registry.empty, []) (mainSetup SignedString)
      = Except.ok
          ({ schemesByName := [("jwt", jwtScheme)], defaultSchemeName := some "jwt" },
            [{ authMode := AuthMode.none, schemeNames := [], requiredRoles := [] },
             { authMode := AuthMode.required, schemeNames := ["jwt"],
               requiredRoles := ["user"] }]) := by
  rfl

/-- **C4**, as stated, fails. The options of the route `GET /me` set `Schemes`
explicitly: the list is `["jwt"]`, not empty. -/
theorem meRoute_schemes_explicit :
    meRoute.Schemes = ["jwt"] ∧ meRoute.Schemes ≠ [] ∧ meRoute.Schemes.isEmpty = false := by
  decide

/-- **C4**, amended. In the setup of `main` the one default scheme set is
`"jwt"`, and the options registered for `GET /me` have `AuthMode`
`"required"`, `Roles` `["user"]` and the explicit `Schemes` `["jwt"]`: the
scheme list of the route is its own and is not left to the default, and it
names the same scheme as the default. -/
theorem meRoute_policy_and_default (SignedString : Signer) :
    defaultSchemeCalls (mainSetup SignedString) = ["jwt"] ∧
    SetupCall.Handle "GET" "/me" meRoute ∈ mainSetup SignedString ∧
    (∀ (method path : String) (o : O),
      SetupCall.Handle method path o ∈ mainSetup SignedString → path = "/me" →
        method = "GET" ∧ o.AuthMode = "required" ∧ o.Roles = ["user"] ∧
          o.Schemes = ["jwt"]) ∧
    meRoute.AuthMode = "required" ∧
    meRoute.Roles = ["user"] ∧
    meRoute.Schemes = ["jwt"] ∧
    meRoute.Schemes = defaultSchemeCalls (mainSetup SignedString) := by
  refine ⟨rfl, ?_, ?_, rfl, rfl, rfl, rfl⟩
  · simp [mainSetup]
  · intro method path o ho hp
    simp only [mainSetup, List.mem_cons, List.mem_singleton, List.not_mem_nil, or_false,
      SetupCall.Handle.injEq] at ho
    rcases ho with ho | ho | ho | ho
    · cases ho
    · cases ho
    · obtain ⟨_, h2, _⟩ := ho
      rw [hp] at h2
      exact absurd h2 (by decide)
    · obtain ⟨h1, _, h3⟩ := ho
      subst h1 h3
      exact ⟨rfl, rfl, rfl, rfl⟩

/-- **C5**. The setup of `main` raises no `ConfigError`: run against the
bundler it ends with the scheme `jwt` registered and default and with the two
route policies built. The name given to `SetDefaultScheme` is registered by
the call before it; every scheme name in the options of a route is registered;
every route whose mode is `required` or `optional` resolves to a scheme list
that is not empty; no route has the mode `none` together with roles, the
`/token` route having the mode `"none"` and no roles. -/
theorem mainSetup_raises_no_ConfigError (SignedString : Signer) :
    (∃ st : Registry × List RoutePolicy,
      runSetup (Registry.empty, []) (mainSetup SignedString) = Except.ok st ∧
      st.1.registered "jwt" = true ∧
      st.1.defaultSchemeName = some "jwt" ∧
      st.2.length = 2 ∧
      (∀ o ∈ routesOf (mainSetup SignedString), ∀ n ∈ o.Schemes,
        st.1.registered n = true) ∧
      (∀ o ∈ routesOf (mainSetup SignedString),
        parseAuthMode o.AuthMode ≠ AuthMode.none → st.1.resolve o ≠ [])) ∧
    (∃ st : Registry × List RoutePolicy,
      runSetup (Registry.empty, []) ((mainSetup SignedString).take 1) = Except.ok st ∧
      st.1.registered "jwt" = true ∧
      registerSchemeCalls ((mainSetup SignedString).take 1) = ["jwt"] ∧
      ((mainSetup SignedString).drop 1).head? = some (SetupCall.SetDefaultScheme "jwt")) ∧
    (∀ o ∈ routesOf (mainSetup SignedString),
      ¬ (parseAuthMode o.AuthMode = AuthMode.none ∧ o.Roles ≠ [])) ∧
    (tokenRoute SignedString).AuthMode = "none" ∧
    (tokenRoute SignedString).Roles = [] := by
  refine ⟨⟨_, runSetup_mainSetup SignedString, by decide, rfl, rfl, ?_, ?_⟩,
    ⟨_, rfl, by decide, rfl, rfl⟩, ?_, rfl, rfl⟩
  · intro o ho n hn
    rw [routesOf_mainSetup] at ho
    simp only [List.mem_cons, List.mem_singleton, List.not_mem_nil, or_false] at ho
    rcases ho with rfl | rfl
    · simp [tokenRoute] at hn
    · simp only [meRoute, List.mem_singleton] at hn
      subst hn
      decide
  · intro o ho hmode
    rw [routesOf_mainSetup] at ho
    simp only [List.mem_cons, List.mem_singleton, List.not_mem_nil, or_false] at ho
    rcases ho with rfl | rfl
    · have hnone : parseAuthMode (tokenRoute SignedString).AuthMode = AuthMode.none := rfl
      exact absurd hnone hmode
    · decide
  · intro o ho
    rw [routesOf_mainSetup] at ho
    simp only [List.mem_cons, List.mem_singleton, List.not_mem_nil, or_false] at ho
    rcases ho with rfl | rfl
    · simp [tokenRoute]
    · intro h
      exact absurd h.1 (by decide)

end Turtle
